import Mathlib

/-!
Shallow embedding of the `solana-event-listener` repository (Rust) in Lean 4.

The embedding covers the message-dispatch engine of `src/rpc.rs`
(`calculate_backoff`, `handle_message`, `handle_logs_notification`,
`handle_account_message`, `handle_account_notification`, and the
frame-processing loop of `try_logs_subscribe`), the event types of
`src/event.rs` together with their serde (de)serialization, and the
configuration handling of `src/config.rs` (`Config::load` validation,
`Config::parse_accounts`) with the supervisor entry points
`run_logs_subscribe` / `run_account_subscribe`.

JSON text frames are modelled as already-lexed JSON values (an inductive
`Json` tree); `serde_json::from_str::<T>` is modelled as a structural
decoder `Json → Option T` following serde-derive semantics (all fields
required unless of `Option` type, unknown fields ignored, `null` decodes
an `Option` field to `None`). Rust `u64`/`i32` values are modelled as
`Nat`/`Int` with explicit range checks in the decoders; no arithmetic in
the embedded code can overflow (the only shift is clamped at 5).
-/

namespace SolanaListener

/-! ### Rust string primitives

Character-level models of the Rust std string operations used by the
repository: `str::starts_with`, `str::split_whitespace`, `str::trim`,
`str::split(',')`.  All are structural recursions over `List Char` so
that they reduce in the kernel. -/

/-- The check `charsLead p s` is true when `p` is a leading segment of `s`
(model of Rust `str::starts_with` at the character level). -/
def charsLead : List Char → List Char → Bool
  | [], _ => true
  | _ :: _, [] => false
  | p :: ps, c :: cs => p == c && charsLead ps cs

/-- Rust `s.starts_with(pat)`. -/
def strLeads (s pat : String) : Bool :=
  charsLead pat.data s.data

/-- Accumulator pass for `split_whitespace`: `acc` holds the current word
reversed. Empty words are never produced. -/
def wordsAux : List Char → List Char → List (List Char)
  | [], acc => if acc.isEmpty then [] else [acc.reverse]
  | c :: cs, acc =>
    if c.isWhitespace then
      if acc.isEmpty then wordsAux cs [] else acc.reverse :: wordsAux cs []
    else wordsAux cs (c :: acc)

/-- Rust `s.split_whitespace()` as a list of words (empty pieces dropped). -/
def splitWs (s : String) : List String :=
  (wordsAux s.data []).map fun w => String.mk w

/-- Rust `str::trim` at the character level: strip whitespace from both ends. -/
def trimChars (cs : List Char) : List Char :=
  ((cs.dropWhile Char.isWhitespace).reverse.dropWhile Char.isWhitespace).reverse

/-- Rust `s.split(',')`: empty pieces are kept (`"".split(',') = [""]`). -/
def splitComma : List Char → List (List Char)
  | [] => [[]]
  | c :: rest =>
    match splitComma rest with
    | [] => [[]]
    | w :: ws => if c == ',' then [] :: w :: ws else (c :: w) :: ws

/-! ### JSON values and serde-style decoding -/

/-- A JSON value, as produced by `serde_json` from a text frame.  Numbers
are modelled as integers (every numeric field the program decodes is an
integer type). -/
inductive Json where
  | null : Json
  | bool (b : Bool) : Json
  | num (n : Int) : Json
  | str (s : String) : Json
  | arr (elems : List Json) : Json
  | obj (fields : List (String × Json)) : Json

/-- Look up a field of a JSON object; `none` on a non-object or a missing
field (serde fails to decode a struct from a non-object). -/
def Json.getField (j : Json) (name : String) : Option Json :=
  match j with
  | .obj fields => fields.lookup name
  | _ => none

/-- Decode a JSON value as a Rust `String`. -/
def Json.asString : Json → Option String
  | .str s => some s
  | _ => none

/-- Decode a JSON value as a Rust `u64` (range-checked). -/
def Json.asU64 : Json → Option Nat
  | .num n => if 0 ≤ n ∧ n < 2 ^ 64 then some n.toNat else none
  | _ => none

/-- Decode a JSON value as a Rust `i32` (range-checked). -/
def Json.asI32 : Json → Option Int
  | .num n => if -(2 ^ 31) ≤ n ∧ n < 2 ^ 31 then some n else none
  | _ => none

/-- Decode a list of JSON values as Rust `String`s (all must decode). -/
def asStringList : List Json → Option (List String)
  | [] => some []
  | j :: rest => do
    let s ← Json.asString j
    let t ← asStringList rest
    pure (s :: t)

/-- Decode a JSON value as a Rust `Vec<String>`. -/
def Json.asStringArray : Json → Option (List String)
  | .arr xs => asStringList xs
  | _ => none

/-- Serde decoding of a field of Rust type `Option<T>`: a missing field or
an explicit `null` gives `None`; any other value must decode with `dec`
or the whole struct fails. -/
def decodeOptField (j : Json) (name : String) (dec : Json → Option α) :
    Option (Option α) :=
  match j.getField name with
  | none => some none
  | some .null => some none
  | some v => (dec v).map some

/-! ### RPC envelope and notification shapes (`src/rpc.rs`) -/

/-- Rust struct `RpcError { code: i32, message: String }`. -/
structure RpcError where
  code : Int
  message : String

/-- Rust struct `RpcResponse { jsonrpc, id, result: Option<Value>,
error: Option<RpcError> }` (both option fields `#[serde(default)]`). -/
structure RpcResponse where
  jsonrpc : String
  id : Nat
  result : Option Json
  error : Option RpcError

/-- Decoding `serde_json::from_str::<RpcError>` on a JSON value. -/
def decodeRpcError (j : Json) : Option RpcError := do
  let code ← j.getField "code" >>= Json.asI32
  let message ← j.getField "message" >>= Json.asString
  pure ⟨code, message⟩

/-- Decoding `serde_json::from_str::<RpcResponse>` on a JSON value. -/
def decodeRpcResponse (j : Json) : Option RpcResponse := do
  let jsonrpc ← j.getField "jsonrpc" >>= Json.asString
  let id ← j.getField "id" >>= Json.asU64
  let result ← decodeOptField j "result" some
  let error ← decodeOptField j "error" decodeRpcError
  pure ⟨jsonrpc, id, result, error⟩

/-- Rust struct `LogsNotificationValue { err, logs, signature }`. -/
structure LogsValue where
  err : Option Json
  logs : List String
  signature : String

/-- Rust `LogsNotification { result: { context: { slot }, value } }`,
flattened: `slot` comes from `result.context.slot`. -/
structure LogsNotif where
  slot : Nat
  value : LogsValue

/-- Decoding `serde_json::from_str::<LogsNotification>` on a JSON value. -/
def decodeLogsNotification (j : Json) : Option LogsNotif := do
  let result ← j.getField "result"
  let context ← result.getField "context"
  let slot ← context.getField "slot" >>= Json.asU64
  let value ← result.getField "value"
  let err ← decodeOptField value "err" some
  let logs ← value.getField "logs" >>= Json.asStringArray
  let signature ← value.getField "signature" >>= Json.asString
  pure ⟨slot, ⟨err, logs, signature⟩⟩

/-- Rust `AccountNotification { result: { context: { slot },
value: { account: { lamports, data } } } }`, flattened. -/
structure AccountNotif where
  slot : Nat
  lamports : Nat
  data : List String

/-- Decoding `serde_json::from_str::<AccountNotification>` on a JSON value. -/
def decodeAccountNotification (j : Json) : Option AccountNotif := do
  let result ← j.getField "result"
  let context ← result.getField "context"
  let slot ← context.getField "slot" >>= Json.asU64
  let value ← result.getField "value"
  let account ← value.getField "account"
  let lamports ← account.getField "lamports" >>= Json.asU64
  let data ← account.getField "data" >>= Json.asStringArray
  pure ⟨slot, lamports, data⟩

/-! ### Event types (`src/event.rs`) with serde serialization -/

/-- Rust struct `LogEvent` from `src/event.rs`. -/
structure LogEvent where
  timestamp : String
  signature : String
  slot : Nat
  program_id : String
  logs : List String
deriving DecidableEq

/-- Rust struct `AccountEvent` from `src/event.rs`. -/
structure AccountEvent where
  timestamp : String
  pubkey : String
  slot : Nat
  lamports : Nat
  data : String
deriving DecidableEq

/-- Serde `Serialize` for `LogEvent`: object with the fields in
declaration order. -/
def LogEvent.toJson (e : LogEvent) : Json :=
  .obj [("timestamp", .str e.timestamp),
        ("signature", .str e.signature),
        ("slot", .num (e.slot : Int)),
        ("program_id", .str e.program_id),
        ("logs", .arr (e.logs.map Json.str))]

/-- Serde `Deserialize` for `LogEvent`: every field required. -/
def LogEvent.fromJson (j : Json) : Option LogEvent := do
  let timestamp ← j.getField "timestamp" >>= Json.asString
  let signature ← j.getField "signature" >>= Json.asString
  let slot ← j.getField "slot" >>= Json.asU64
  let program_id ← j.getField "program_id" >>= Json.asString
  let logs ← j.getField "logs" >>= Json.asStringArray
  pure ⟨timestamp, signature, slot, program_id, logs⟩

/-- Serde `Serialize` for `AccountEvent`. -/
def AccountEvent.toJson (e : AccountEvent) : Json :=
  .obj [("timestamp", .str e.timestamp),
        ("pubkey", .str e.pubkey),
        ("slot", .num (e.slot : Int)),
        ("lamports", .num (e.lamports : Int)),
        ("data", .str e.data)]

/-- Serde `Deserialize` for `AccountEvent`. -/
def AccountEvent.fromJson (j : Json) : Option AccountEvent := do
  let timestamp ← j.getField "timestamp" >>= Json.asString
  let pubkey ← j.getField "pubkey" >>= Json.asString
  let slot ← j.getField "slot" >>= Json.asU64
  let lamports ← j.getField "lamports" >>= Json.asU64
  let data ← j.getField "data" >>= Json.asString
  pure ⟨timestamp, pubkey, slot, lamports, data⟩

/-- A record handed to the sink: either event shape. -/
inductive Event where
  | log (e : LogEvent) : Event
  | account (e : AccountEvent) : Event
deriving DecidableEq

/-! ### Backoff (`calculate_backoff`, src/rpc.rs lines 71-74) -/

/-- Rust `fn calculate_backoff(attempt: u32, max_seconds: u64) -> Duration`:
`(1u64 << attempt.min(5)).min(max_seconds)` seconds.  The shift exponent
is clamped at 5, so `1 << _ ≤ 32` and the `u64` arithmetic cannot
overflow; the result is the delay in whole seconds. -/
def calculate_backoff (attempt : Nat) (max_seconds : Nat) : Nat :=
  Nat.min (1 <<< Nat.min attempt 5) max_seconds

/-! ### Message handling (`src/rpc.rs` lines 205-287 and 452-522)

The session's observable state: the sink contents (ordered appends), the
two monotonic counters, and the liveness gauge.  `writer.write` may fail
in the code (`Result`), so the handlers take a `writeOk` flag standing
for the outcome of the sink append; the wall-clock timestamp string is
the `now` parameter. -/

/-- Observable state of one subscription session. -/
structure SessionState where
  sink : List Event
  eventsTotal : Nat
  errorsTotal : Nat
  wsConnected : Bool
deriving DecidableEq

/-- The session state at the start of frame processing (connected, empty
sink, zero counters). -/
def initialSessionState : SessionState :=
  ⟨[], 0, 0, true⟩

/-- The `LogEvent` built by `handle_logs_notification`: the heuristic
program-id extraction from `logs` (lines 245-255): from the first log
line, when it starts with `"Program "`, take `split_whitespace().nth(2)`;
otherwise (or with no log lines / no third token) the sentinel
`"unknown"`. -/
def extractProgramId (logs : List String) : String :=
  (logs.head?.bind fun log =>
      if strLeads log "Program " then (splitWs log)[2]? else none).getD
    "unknown"

/-- The event constructed by `handle_logs_notification` (lines 263-269). -/
def eventOfLogsNotif (now : String) (n : LogsNotif) : LogEvent :=
  ⟨now, n.value.signature, n.slot, extractProgramId n.value.logs,
    n.value.logs⟩

/-- The event constructed by `handle_account_notification` (lines
486-507): `pubkey` is always the sentinel `"unknown"`, `data` is the
concatenation (`join("")`) of the base64 segments. -/
def eventOfAccountNotif (now : String) (n : AccountNotif) : AccountEvent :=
  ⟨now, "unknown", n.slot, n.lamports, String.join n.data⟩

/-- Rust `handle_logs_notification` (lines 235-287): build the event, append
it to the sink (propagating a write failure before any counter change),
then increment `events_total`. -/
def handle_logs_notification (now : String) (writeOk : Bool)
    (n : LogsNotif) (s : SessionState) : SessionState × Except String Unit :=
  if writeOk then
    ({ s with sink := s.sink ++ [Event.log (eventOfLogsNotif now n)],
              eventsTotal := s.eventsTotal + 1 },
      Except.ok ())
  else (s, Except.error "Failed to write event")

/-- Rust `handle_account_notification` (lines 481-522). -/
def handle_account_notification (now : String) (writeOk : Bool)
    (n : AccountNotif) (s : SessionState) :
    SessionState × Except String Unit :=
  if writeOk then
    ({ s with sink := s.sink ++ [Event.account (eventOfAccountNotif now n)],
              eventsTotal := s.eventsTotal + 1 },
      Except.ok ())
  else (s, Except.error "Failed to write event")

/-- Rust `handle_message` (lines 206-232): try `RpcResponse` first — an error
field is surfaced as `Err` (no state change), a result field is only
logged; otherwise try `LogsNotification`; otherwise warn and return
`Ok`. -/
def handle_message (now : String) (writeOk : Bool) (j : Json)
    (s : SessionState) : SessionState × Except String Unit :=
  match decodeRpcResponse j with
  | some response =>
    match response.error with
    | some e =>
      (s, Except.error ("RPC error: " ++ e.message ++ " (code: "
        ++ toString e.code ++ ")"))
    | none => (s, Except.ok ())
  | none =>
    match decodeLogsNotification j with
    | some n => handle_logs_notification now writeOk n s
    | none => (s, Except.ok ())

/-- Rust `handle_account_message` (lines 453-478), the account-mode analogue. -/
def handle_account_message (now : String) (writeOk : Bool) (j : Json)
    (s : SessionState) : SessionState × Except String Unit :=
  match decodeRpcResponse j with
  | some response =>
    match response.error with
    | some e =>
      (s, Except.error ("RPC error: " ++ e.message ++ " (code: "
        ++ toString e.code ++ ")"))
    | none => (s, Except.ok ())
  | none =>
    match decodeAccountNotification j with
    | some n => handle_account_notification now writeOk n s
    | none => (s, Except.ok ())

/-! ### The frame-processing loop of `try_logs_subscribe` (lines 162-202) -/

/-- One inbound item of the `read.next()` loop: a WebSocket message or a
transport read error. -/
inductive Frame where
  | text (j : Json) : Frame
  | ping : Frame
  | pong : Frame
  | close : Frame
  | binary : Frame
  | ctl : Frame
  | readErr (msg : String) : Frame

/-- One iteration of the logs-mode frame loop.  The second component is
`some err` exactly when the loop exits (bails) at this frame.  A failing
`handle_message` is logged and counted in `errors_total` but does NOT
exit the loop (lines 167-170); `Close` and a transport error are fatal;
`Ping` is answered (the pong send is modelled as succeeding); `Pong`,
`Binary` and low-level frames are no-ops. -/
def sessionStep (now : String) (writeOk : Bool) (f : Frame)
    (s : SessionState) : SessionState × Option String :=
  match f with
  | .text j =>
    match handle_message now writeOk j s with
    | (s', Except.ok ()) => (s', none)
    | (s', Except.error _) =>
      ({ s' with errorsTotal := s'.errorsTotal + 1 }, none)
  | .ping => (s, none)
  | .pong => (s, none)
  | .close =>
    ({ s with wsConnected := false }, some "WebSocket closed by server")
  | .binary => (s, none)
  | .ctl => (s, none)
  | .readErr msg =>
    ({ s with errorsTotal := s.errorsTotal + 1, wsConnected := false },
      some ("WebSocket error: " ++ msg))

/-- The whole `while let Some(msg_result) = read.next().await` loop on a
finite frame sequence: the session always terminates with an error — if
no frame is fatal, the stream ends and the code bails with
`"WebSocket stream ended"` (line 202). -/
def runFrames (now : String) (writeOk : Bool) :
    List Frame → SessionState → SessionState × String
  | [], s => (s, "WebSocket stream ended")
  | f :: rest, s =>
    match sessionStep now writeOk f s with
    | (s', some e) => (s', e)
    | (s', none) => runFrames now writeOk rest s'

/-! ### Configuration (`src/config.rs`) and supervisors -/

/-- Rust enum `Mode`. -/
inductive Mode where
  | logs : Mode
  | account : Mode
deriving DecidableEq

/-- Rust enum `Commitment`. -/
inductive Commitment where
  | processed : Commitment
  | confirmed : Commitment
  | finalized : Commitment
deriving DecidableEq

/-- Rust `Commitment::as_str`. -/
def Commitment.asStr : Commitment → String
  | .processed => "processed"
  | .confirmed => "confirmed"
  | .finalized => "finalized"

/-- Rust struct `Config` (the resolved settings object). -/
structure Config where
  ws_url : String
  mode : Mode
  program_id : Option String
  accounts : Option String
  commitment : Commitment
  event_log_path : String
  metrics_addr : String
deriving DecidableEq

/-- The mode validation of `Config::load` (src/config.rs lines 49-57):
logs mode requires `program_id`, account mode requires `accounts`. -/
def validateConfig (cfg : Config) : Except String Config :=
  match cfg.mode, cfg.program_id, cfg.accounts with
  | .logs, none, _ => Except.error "MODE=logs requires PROGRAM_ID to be set"
  | .account, _, none =>
    Except.error "MODE=account requires ACCOUNTS to be set"
  | _, _, _ => Except.ok cfg

/-- Rust `Config::parse_accounts` (lines 70-79): split the comma-separated
list, trim each piece, drop empty pieces; `None` gives the empty list.
(The Rust function returns `Result` but never errors.) -/
def parse_accounts (cfg : Config) : List String :=
  match cfg.accounts with
  | some s =>
    ((splitComma s.data).map fun w => String.mk (trimChars w)).filter
      fun t => !t.isEmpty
  | none => []

/-- What happens at the top of `run_logs_subscribe` (src/rpc.rs line 83):
`config.program_id.as_ref().unwrap()` panics on `None`. -/
inductive UnwrapOutcome where
  | panics : UnwrapOutcome
  | proceeds (pid : String) : UnwrapOutcome
deriving DecidableEq

/-- The unconditional unwrap at the start of `run_logs_subscribe`. -/
def run_logs_subscribe_start (cfg : Config) : UnwrapOutcome :=
  match cfg.program_id with
  | none => .panics
  | some p => .proceeds p

/-- Result of the account-mode supervisor: its outcome and how many
connection attempts (session runs) it made. -/
structure SupervisorResult where
  outcome : Except String Unit
  connectAttempts : Nat

/-- The retry loop of `run_account_subscribe` (lines 330-355), driven by
a finite list of session outcomes (each entry is one connection attempt):
`Ok` breaks the loop, `Err` backs off and retries.  An exhausted list
models cutting the (otherwise endless) loop off after that many
attempts. -/
def accountSupervisorLoop : List (Except String Unit) → Nat → SupervisorResult
  | [], n => ⟨Except.error "session attempts exhausted", n⟩
  | Except.ok () :: _, n => ⟨Except.ok (), n + 1⟩
  | Except.error _ :: rest, n => accountSupervisorLoop rest (n + 1)

/-- Rust `run_account_subscribe` (lines 317-356): parse the account list and
bail with a configuration error — before any connection attempt — when it
is empty; otherwise enter the retry loop. -/
def run_account_subscribe (cfg : Config)
    (sessions : List (Except String Unit)) : SupervisorResult :=
  if (parse_accounts cfg).isEmpty then
    ⟨Except.error "No accounts provided for account subscription", 0⟩
  else accountSupervisorLoop sessions 0

/-! ### Concrete frames and configurations used as witnesses -/

/-- An RPC response envelope whose `error` field is present. -/
def jErrExample : Json :=
  .obj [("jsonrpc", .str "2.0"), ("id", .num 1),
        ("error", .obj [("code", .num (-32602)),
                        ("message", .str "Invalid params")])]

/-- A well-formed logs notification frame. -/
def jLogsExample : Json :=
  .obj [("result", .obj [
      ("context", .obj [("slot", .num 42)]),
      ("value", .obj [("err", .null),
                      ("logs", .arr [.str "Program log: ABC"]),
                      ("signature", .str "sig1")])])]

/-- A well-formed account notification frame. -/
def jAcctExample : Json :=
  .obj [("result", .obj [
      ("context", .obj [("slot", .num 7)]),
      ("value", .obj [("account",
        .obj [("lamports", .num 1000),
              ("data", .arr [.str "AA", .str "BB"])])])])]

/-- A frame that is neither an RPC envelope nor a notification. -/
def jUnknownExample : Json := Json.str "hello"

/-- An account-mode configuration whose account list parses to empty. -/
def cfgAcctEmpty : Config :=
  ⟨"wss://example", Mode.account, none, some " , ", Commitment.finalized,
    "./events.jsonl", "0.0.0.0:9108"⟩

/-- A logs-mode configuration with a program id (passes validation). -/
def cfgLogsExample : Config :=
  ⟨"wss://example", Mode.logs, some "Prog111", none, Commitment.finalized,
    "./events.jsonl", "0.0.0.0:9108"⟩

/-- A logs-mode configuration without a program id (rejected by
`Config::load`). -/
def cfgNoPidExample : Config :=
  ⟨"wss://example", Mode.logs, none, none, Commitment.finalized,
    "./events.jsonl", "0.0.0.0:9108"⟩

/-! ### Helper lemmas -/

/-- Decoding a serialized string list gives back the list. -/
theorem asStringList_map_str (l : List String) :
    asStringList (l.map Json.str) = some l := by
  induction l with
  | nil => rfl
  | cons a t ih =>
    simp only [List.map_cons, asStringList, Json.asString]
    simp [ih]

/-- Decoder evaluation on a string value. -/
theorem asStringStr (s : String) :
    Json.asString (Json.str s) = some s := rfl

/-- Decoder evaluation on a numeric value. -/
theorem asU64Num (n : Int) :
    Json.asU64 (Json.num n)
      = if 0 ≤ n ∧ n < 2 ^ 64 then some n.toNat else none := rfl

/-- Decoder evaluation on an array value. -/
theorem asStringArrayArr (xs : List Json) :
    Json.asStringArray (Json.arr xs) = asStringList xs := rfl

/-- Bind of a `some` in the `Option` monad. -/
theorem optSomeBind {α β : Type} (a : α) (f : α → Option β) :
    (some a >>= f) = f a := rfl

/-- Round trip for a `LogEvent` with an in-range slot. -/
theorem logEvent_roundtrip_aux (e : LogEvent) (he : e.slot < 2 ^ 64) :
    LogEvent.fromJson (LogEvent.toJson e) = some e := by
  have hse : ((e.slot : Int)) < 2 ^ 64 := by exact_mod_cast he
  have hts : (LogEvent.toJson e).getField "timestamp"
      = some (.str e.timestamp) := rfl
  have hsig : (LogEvent.toJson e).getField "signature"
      = some (.str e.signature) := rfl
  have hslot : (LogEvent.toJson e).getField "slot"
      = some (.num (e.slot : Int)) := rfl
  have hpid : (LogEvent.toJson e).getField "program_id"
      = some (.str e.program_id) := rfl
  have hlogs : (LogEvent.toJson e).getField "logs"
      = some (.arr (e.logs.map Json.str)) := rfl
  unfold LogEvent.fromJson
  rw [hts, hsig, hslot, hpid, hlogs]
  rw [optSomeBind, asStringStr, optSomeBind]
  rw [optSomeBind, asStringStr, optSomeBind]
  rw [optSomeBind, asU64Num, if_pos ⟨Int.natCast_nonneg _, hse⟩,
    Int.toNat_natCast, optSomeBind]
  rw [optSomeBind, asStringStr, optSomeBind]
  rw [optSomeBind, asStringArrayArr, asStringList_map_str, optSomeBind]
  rfl

/-- Round trip for an `AccountEvent` with in-range slot and lamports. -/
theorem accountEvent_roundtrip_aux (a : AccountEvent)
    (ha1 : a.slot < 2 ^ 64) (ha2 : a.lamports < 2 ^ 64) :
    AccountEvent.fromJson (AccountEvent.toJson a) = some a := by
  have hsa : ((a.slot : Int)) < 2 ^ 64 := by exact_mod_cast ha1
  have hla : ((a.lamports : Int)) < 2 ^ 64 := by exact_mod_cast ha2
  have hts : (AccountEvent.toJson a).getField "timestamp"
      = some (.str a.timestamp) := rfl
  have hpk : (AccountEvent.toJson a).getField "pubkey"
      = some (.str a.pubkey) := rfl
  have hslot : (AccountEvent.toJson a).getField "slot"
      = some (.num (a.slot : Int)) := rfl
  have hlam : (AccountEvent.toJson a).getField "lamports"
      = some (.num (a.lamports : Int)) := rfl
  have hdata : (AccountEvent.toJson a).getField "data"
      = some (.str a.data) := rfl
  unfold AccountEvent.fromJson
  rw [hts, hpk, hslot, hlam, hdata]
  rw [optSomeBind, asStringStr, optSomeBind]
  rw [optSomeBind, asStringStr, optSomeBind]
  rw [optSomeBind, asU64Num, if_pos ⟨Int.natCast_nonneg _, hsa⟩,
    Int.toNat_natCast, optSomeBind]
  rw [optSomeBind, asU64Num, if_pos ⟨Int.natCast_nonneg _, hla⟩,
    Int.toNat_natCast, optSomeBind]
  rw [optSomeBind, asStringStr, optSomeBind]
  rfl

/-! ### Claim theorems -/

/-- C4: for every attempt count `a` and positive cap `c`, the backoff
delay is `min(2^min(a,5), c)` seconds, with the listed concrete values
`delay(0,30)=1`, `delay(5,30)=30`, `delay(100,30)=30`, `delay(4,10)=10`. -/
theorem backoff_delay_formula :
    (∀ a c : Nat, 0 < c →
      calculate_backoff a c = Nat.min (2 ^ Nat.min a 5) c) ∧
    calculate_backoff 0 30 = 1 ∧ calculate_backoff 5 30 = 30 ∧
    calculate_backoff 100 30 = 30 ∧ calculate_backoff 4 10 = 10 := by
  refine ⟨fun a c _ => ?_, rfl, rfl, rfl, rfl⟩
  simp [calculate_backoff, Nat.shiftLeft_eq]

/-- Witness for C4 at `a = 7`, `c = 30`. -/
theorem backoff_delay_formula_witness :
    calculate_backoff 7 30 = Nat.min (2 ^ Nat.min 7 5) 30 :=
  backoff_delay_formula.1 7 30 (by decide)

/-- C3: the program-id heuristic of `handle_logs_notification`: with no
log lines the result is `"unknown"`; when the first line starts with
`"Program "` and has at least three whitespace-separated tokens the
result is the third token; when the first line does not start with
`"Program "`, or has fewer than three tokens, the result is
`"unknown"`. -/
theorem program_id_extraction (logs : List String) :
    (logs = [] → extractProgramId logs = "unknown") ∧
    (∀ l rest, logs = l :: rest → strLeads l "Program " = true →
      3 ≤ (splitWs l).length →
      extractProgramId logs = (splitWs l).getD 2 "") ∧
    (∀ l rest, logs = l :: rest → strLeads l "Program " = false →
      extractProgramId logs = "unknown") ∧
    (∀ l rest, logs = l :: rest → (splitWs l).length < 3 →
      extractProgramId logs = "unknown") := by
  refine ⟨fun h => by subst h; rfl, ?_, ?_, ?_⟩
  · intro l rest h hlead hlen
    subst h
    have h2 : 2 < (splitWs l).length := hlen
    simp [extractProgramId, hlead, List.getElem?_eq_getElem h2,
      List.getD_eq_getElem?_getD]
  · intro l rest h hlead
    subst h
    simp [extractProgramId, hlead]
  · intro l rest h hlen
    subst h
    cases hlead : strLeads l "Program " with
    | false => simp [extractProgramId, hlead]
    | true =>
      have : (splitWs l)[2]? = none := by
        rw [List.getElem?_eq_none]
        omega
      simp [extractProgramId, hlead, this]

/-- Witness for C3 on the log line `"Program log: ABC"`. -/
theorem program_id_extraction_witness :
    extractProgramId ["Program log: ABC"] =
      (splitWs "Program log: ABC").getD 2 "" :=
  (program_id_extraction _).2.1 "Program log: ABC" [] rfl (by decide)
    (by decide)

/-- C2 counterexample: for the first log line
`"Program 7xyz... invoke [1]"` the extracted `LogEvent` has
`program_id ≠ "7xyz..."` (the code takes `split_whitespace().nth(2)`,
which is `"invoke"`). -/
theorem program_id_example_counterexample :
    (eventOfLogsNotif "2024-01-01T00:00:00Z"
        ⟨100, ⟨none, ["Program 7xyz... invoke [1]"], "sig"⟩⟩).program_id
      ≠ "7xyz..." := by decide

/-- C2 amended: for the first log line `"Program 7xyz... invoke [1]"`
the extracted `LogEvent` has `program_id = "invoke"`, the third
whitespace-separated token of the line. -/
theorem program_id_example_amended :
    (eventOfLogsNotif "2024-01-01T00:00:00Z"
        ⟨100, ⟨none, ["Program 7xyz... invoke [1]"], "sig"⟩⟩).program_id
      = "invoke" := by decide

/-- C1 counterexample: processing a text frame that decodes as an RPC
response envelope with an error field present does NOT terminate the
session — the frame loop's exit flag is `none` at that frame, and a
well-formed notification frame arriving afterwards in the same session
is still processed and appended (final sink length 1). -/
theorem rpc_error_termination_counterexample :
    (sessionStep "T" true (Frame.text jErrExample) initialSessionState).2
      = none ∧
    (runFrames "T" true [Frame.text jErrExample, Frame.text jLogsExample]
        initialSessionState).1.sink.length = 1 :=
  ⟨rfl, rfl⟩

/-- C1 amended: for every text frame that decodes as an RPC response
envelope with an error field present, the message handler performs zero
appends, returns an error, and the frame loop increments the error
counter once and CONTINUES the session (the loop does not exit;
subsequent frames are still processed). -/
theorem rpc_error_counted_session_continues (now : String) (wOk : Bool)
    (j : Json) (r : RpcResponse) (e : RpcError) (s : SessionState)
    (hr : decodeRpcResponse j = some r) (he : r.error = some e) :
    (handle_message now wOk j s).1 = s ∧
    (handle_message now wOk j s).2 = Except.error
      ("RPC error: " ++ e.message ++ " (code: " ++ toString e.code ++ ")") ∧
    (sessionStep now wOk (Frame.text j) s).1.sink = s.sink ∧
    (sessionStep now wOk (Frame.text j) s).1.eventsTotal = s.eventsTotal ∧
    (sessionStep now wOk (Frame.text j) s).1.errorsTotal
      = s.errorsTotal + 1 ∧
    (sessionStep now wOk (Frame.text j) s).2 = none := by
  simp [handle_message, sessionStep, hr, he]

/-- Witness for the amended C1 at the concrete error envelope. -/
theorem rpc_error_counted_session_continues_witness :
    (sessionStep "T" true (Frame.text jErrExample)
        initialSessionState).1.errorsTotal = 1 ∧
    (sessionStep "T" true (Frame.text jErrExample)
        initialSessionState).2 = none := by
  have h := rpc_error_counted_session_continues "T" true jErrExample
    ⟨"2.0", 1, none, some ⟨-32602, "Invalid params"⟩⟩
    ⟨-32602, "Invalid params"⟩ initialSessionState rfl rfl
  exact ⟨h.2.2.2.2.1, h.2.2.2.2.2⟩

/-- C5: a text frame that is not an RPC envelope and decodes as the
mode-matching notification results in exactly one append of the
extracted event to the sink and exactly one increment of the event
counter (all other state unchanged, `Ok` returned), in both logs and
account modes. -/
theorem notification_single_append (now : String) (j : Json)
    (s : SessionState) :
    (∀ n, decodeRpcResponse j = none → decodeLogsNotification j = some n →
      handle_message now true j s =
        ({ s with sink := s.sink ++ [Event.log (eventOfLogsNotif now n)],
                  eventsTotal := s.eventsTotal + 1 }, Except.ok ())) ∧
    (∀ n, decodeRpcResponse j = none →
      decodeAccountNotification j = some n →
      handle_account_message now true j s =
        ({ s with
            sink := s.sink ++ [Event.account (eventOfAccountNotif now n)],
            eventsTotal := s.eventsTotal + 1 }, Except.ok ())) := by
  constructor
  · intro n h1 h2
    simp [handle_message, h1, h2, handle_logs_notification]
  · intro n h1 h2
    simp [handle_account_message, h1, h2, handle_account_notification]

/-- Witness for C5 at a concrete logs frame and a concrete account
frame. -/
theorem notification_single_append_witness :
    handle_message "T" true jLogsExample initialSessionState =
      ({ initialSessionState with
          sink := [Event.log (eventOfLogsNotif "T"
            ⟨42, ⟨none, ["Program log: ABC"], "sig1"⟩⟩)],
          eventsTotal := 1 }, Except.ok ()) ∧
    handle_account_message "T" true jAcctExample initialSessionState =
      ({ initialSessionState with
          sink := [Event.account (eventOfAccountNotif "T"
            ⟨7, 1000, ["AA", "BB"]⟩)],
          eventsTotal := 1 }, Except.ok ()) :=
  ⟨(notification_single_append "T" jLogsExample initialSessionState).1 _
      rfl rfl,
   (notification_single_append "T" jAcctExample initialSessionState).2 _
      rfl rfl⟩

/-- C7: a text frame that decodes as neither an RPC response envelope
nor a mode-matching notification is dropped: the handler returns `Ok`,
the state (sink, both counters, gauge) is unchanged, and the frame loop
continues (exit flag `none`), in both logs and account modes. -/
theorem unknown_frame_dropped (now : String) (wOk : Bool) (j : Json)
    (s : SessionState) :
    (decodeRpcResponse j = none → decodeLogsNotification j = none →
      handle_message now wOk j s = (s, Except.ok ()) ∧
      (sessionStep now wOk (Frame.text j) s).1 = s ∧
      (sessionStep now wOk (Frame.text j) s).2 = none) ∧
    (decodeRpcResponse j = none → decodeAccountNotification j = none →
      handle_account_message now wOk j s = (s, Except.ok ())) := by
  constructor
  · intro h1 h2
    refine ⟨?_, ?_, ?_⟩ <;> simp [handle_message, sessionStep, h1, h2]
  · intro h1 h2
    simp [handle_account_message, h1, h2]

/-- Witness for C7 at a concrete unrecognized frame. -/
theorem unknown_frame_dropped_witness :
    handle_message "T" true jUnknownExample initialSessionState
      = (initialSessionState, Except.ok ()) ∧
    handle_account_message "T" true jUnknownExample initialSessionState
      = (initialSessionState, Except.ok ()) :=
  ⟨((unknown_frame_dropped "T" true jUnknownExample
      initialSessionState).1 rfl rfl).1,
   (unknown_frame_dropped "T" true jUnknownExample
      initialSessionState).2 rfl rfl⟩

/-- C8: when the account-mode supervisor is invoked with a configuration
whose account list parses to empty, it returns the configuration error
immediately with zero connection attempts, regardless of how many
session attempts would have been available (not retried). -/
theorem empty_accounts_config_error (cfg : Config)
    (sessions : List (Except String Unit))
    (h : parse_accounts cfg = []) :
    (run_account_subscribe cfg sessions).outcome =
      Except.error "No accounts provided for account subscription" ∧
    (run_account_subscribe cfg sessions).connectAttempts = 0 := by
  simp [run_account_subscribe, h]

/-- Witness for C8: `ACCOUNTS=" , "` parses to the empty list and the
supervisor reports the configuration error with zero attempts. -/
theorem empty_accounts_config_error_witness :
    (run_account_subscribe cfgAcctEmpty [Except.error "boom"]).outcome =
      Except.error "No accounts provided for account subscription" ∧
    (run_account_subscribe cfgAcctEmpty
        [Except.error "boom"]).connectAttempts = 0 :=
  empty_accounts_config_error cfgAcctEmpty [Except.error "boom"] (by decide)

/-- C9: serializing a `LogEvent` or an `AccountEvent` whose numeric
fields are in `u64` range (as every parser-produced event is) and
parsing the record back yields the original event, field for field. -/
theorem event_roundtrip (e : LogEvent) (a : AccountEvent)
    (he : e.slot < 2 ^ 64) (ha1 : a.slot < 2 ^ 64)
    (ha2 : a.lamports < 2 ^ 64) :
    LogEvent.fromJson (LogEvent.toJson e) = some e ∧
    AccountEvent.fromJson (AccountEvent.toJson a) = some a :=
  ⟨logEvent_roundtrip_aux e he, accountEvent_roundtrip_aux a ha1 ha2⟩

/-- Witness for C9 at concrete events. -/
theorem event_roundtrip_witness :
    LogEvent.fromJson (LogEvent.toJson ⟨"T", "s", 5, "p", ["a", "b"]⟩)
      = some ⟨"T", "s", 5, "p", ["a", "b"]⟩ ∧
    AccountEvent.fromJson (AccountEvent.toJson ⟨"T", "pk", 6, 1000, "dd"⟩)
      = some ⟨"T", "pk", 6, 1000, "dd"⟩ :=
  event_roundtrip ⟨"T", "s", 5, "p", ["a", "b"]⟩ ⟨"T", "pk", 6, 1000, "dd"⟩
    (by decide) (by decide) (by decide)

/-- C10: `run_logs_subscribe` unconditionally unwraps the optional
program id, so it panics on every configuration with `program_id =
None`; and for every configuration accepted by `Config::load`'s mode
validation whose mode is logs, the panic branch is unreachable. -/
theorem logs_unwrap_panic_guard :
    (∀ cfg : Config, cfg.program_id = none →
      run_logs_subscribe_start cfg = UnwrapOutcome.panics) ∧
    (∀ cfg cfg' : Config, validateConfig cfg = Except.ok cfg' →
      cfg'.mode = Mode.logs →
      run_logs_subscribe_start cfg' ≠ UnwrapOutcome.panics) := by
  constructor
  · intro cfg h
    simp [run_logs_subscribe_start, h]
  · intro cfg cfg' hv hm
    rcases cfg with ⟨u, m, pid, acc, c, p, ma⟩
    cases m <;> cases pid <;> cases acc <;>
      simp [validateConfig] at hv <;>
      subst hv <;> simp_all [run_logs_subscribe_start]

/-- Witness for C10: the no-program-id logs config panics; the validated
logs config does not. -/
theorem logs_unwrap_panic_guard_witness :
    run_logs_subscribe_start cfgNoPidExample = UnwrapOutcome.panics ∧
    run_logs_subscribe_start cfgLogsExample ≠ UnwrapOutcome.panics :=
  ⟨logs_unwrap_panic_guard.1 cfgNoPidExample rfl,
   logs_unwrap_panic_guard.2 cfgLogsExample cfgLogsExample rfl rfl⟩

end SolanaListener
